import Mathlib

/-!
Verification development for `beanbot/ops/filter.py` (repository cvcore/bean-bot).

The module defines a hierarchy of filter classes over beancount directives:
`BaseFilter`, `TransactionFilter`, `BalancedTransactionFilter`,
`UnbalancedTransactionFilter`, `PredictedTransactionFilter`.  We embed the
Python semantics shallowly: instances are records carrying their dynamic
class, the `_inverse_condition` flag and (when set by a constructor) the
`_options_map` attribute; method calls are resolved through an explicit
method-resolution-order (MRO) model, and Python exceptions are modelled with
`Except`.  The external predicates `is_balanced` and `is_predicted`
(imported from `beanbot.ops.conditions`, declared external collaborators)
are parameters of every definition that calls them.

A second part of the development models the layout of the source file itself
(physical lines, indentation, comment lines) together with the fragment of
the CPython tokenizer rules that decides whether the stray statement
`return transactions_latest` on line 98 is a module-level statement (a
parse error) or part of an enclosing function body.
-/

/-- Beancount directive model (`beancount.core.data`): a directive is either
a `Transaction` or one of the other directive kinds (price, balance
assertion, open).  The payload is an opaque identifier; the external
predicates may inspect it.  `isinstance(entry, data.Transaction)` is the
`Directive.isTransaction` test below. -/
inductive Directive where
  | transaction (id : Nat)
  | price (id : Nat)
  | balanceAssertion (id : Nat)
  | openAccount (id : Nat)
deriving DecidableEq, Repr

/-- `isinstance(entry, data.Transaction)`. -/
def Directive.isTransaction : Directive → Bool
  | .transaction _ => true
  | _ => false

/-- The five filter classes defined in `filter.py`. -/
inductive FilterClass where
  | baseFilter
  | transactionFilter
  | balancedTransactionFilter
  | unbalancedTransactionFilter
  | predictedTransactionFilter
deriving DecidableEq, Repr

/-- A Python class that can occur in a method-resolution order: one of the
filter classes, or the built-in `object` root class. -/
inductive PyClass where
  | cls (c : FilterClass)
  | objectClass
deriving DecidableEq, Repr

/-- Method-resolution order of each filter class, from the class itself down
to `object`.  Single inheritance, read off the `class C(P):` headers:
`BaseFilter` has no explicit base, `TransactionFilter(BaseFilter)`,
`BalancedTransactionFilter(TransactionFilter)`,
`UnbalancedTransactionFilter(BalancedTransactionFilter)`,
`PredictedTransactionFilter(TransactionFilter)`. -/
def mro : FilterClass → List PyClass
  | .baseFilter => [.cls .baseFilter, .objectClass]
  | .transactionFilter => [.cls .transactionFilter, .cls .baseFilter, .objectClass]
  | .balancedTransactionFilter =>
      [.cls .balancedTransactionFilter, .cls .transactionFilter, .cls .baseFilter, .objectClass]
  | .unbalancedTransactionFilter =>
      [.cls .unbalancedTransactionFilter, .cls .balancedTransactionFilter,
       .cls .transactionFilter, .cls .baseFilter, .objectClass]
  | .predictedTransactionFilter =>
      [.cls .predictedTransactionFilter, .cls .transactionFilter, .cls .baseFilter, .objectClass]

/-- Which class bodies define a method named `filter`.  In the source only
`BaseFilter` does (lines 27-32); no subclass overrides it, and `object`
has no such attribute. -/
def definesFilterMethod : PyClass → Bool
  | .cls .baseFilter => true
  | _ => false

/-- The four distinct `_cond_impl` method bodies appearing in the source. -/
inductive CondBody where
  | baseBody
  | txnBody
  | balancedBody
  | predictedBody
deriving DecidableEq, Repr

/-- Which class bodies define `_cond_impl`, and which body.  `BaseFilter`
(line 43), `TransactionFilter` (line 49), `BalancedTransactionFilter`
(line 60) and `PredictedTransactionFilter` (line 104) define one;
`UnbalancedTransactionFilter` and `object` do not. -/
def definesCondImpl : PyClass → Option CondBody
  | .cls .baseFilter => some .baseBody
  | .cls .transactionFilter => some .txnBody
  | .cls .balancedTransactionFilter => some .balancedBody
  | .cls .predictedTransactionFilter => some .predictedBody
  | _ => none

/-- Inside `BaseFilter.filter`, the zero-argument `super()` denotes
`super(BaseFilter, self)`: attribute lookup on it scans the part of the
dynamic class MRO strictly after `BaseFilter`.  This is the value of
`hasattr(super(), "filter")` at line 30 for an instance of class `c`. -/
def superHasFilter (c : FilterClass) : Bool :=
  (((mro c).dropWhile (fun k => k != .cls .baseFilter)).tail).any definesFilterMethod

/-- Python runtime exceptions that the embedded code can raise. -/
inductive PyErr where
  | nameError (n : String)
  | typeError (msg : String)
  | attributeError (n : String)
deriving DecidableEq, Repr

/-- A filter instance: its dynamic class, the `_inverse_condition`
attribute set by `BaseFilter.__init__`, and the `_options_map` attribute
(present only when `BalancedTransactionFilter.__init__` ran).  `Cfg` is the
opaque type of the beancount options map. -/
structure FilterInst (Cfg : Type) where
  cls : FilterClass
  inverse_condition : Bool
  options_map : Option Cfg
deriving DecidableEq, Repr

/-- `BaseFilter()`: `__init__` sets `_inverse_condition = False`. -/
def BaseFilter.new {Cfg : Type} : FilterInst Cfg :=
  { cls := .baseFilter, inverse_condition := false, options_map := none }

/-- `TransactionFilter()`: inherits `BaseFilter.__init__`. -/
def TransactionFilter.new {Cfg : Type} : FilterInst Cfg :=
  { cls := .transactionFilter, inverse_condition := false, options_map := none }

/-- `BalancedTransactionFilter(options_map)`: `super().__init__()` sets
`_inverse_condition = False`, then `_options_map` is stored. -/
def BalancedTransactionFilter.new {Cfg : Type} (options_map : Cfg) : FilterInst Cfg :=
  { cls := .balancedTransactionFilter, inverse_condition := false, options_map := some options_map }

/-- `PredictedTransactionFilter()`: inherits `BaseFilter.__init__`. -/
def PredictedTransactionFilter.new {Cfg : Type} : FilterInst Cfg :=
  { cls := .predictedTransactionFilter, inverse_condition := false, options_map := none }

/-- Names bound in the module-level namespace of `filter.py` once the module
has executed: the imports of lines 5-10 and the class statements.  (Name
lookup for a global falls back to builtins; none of the builtins is named
`transactions_latest` either, so membership here decides the NameError.) -/
def moduleTopLevelNames : List String :=
  ["ABC", "abstractmethod", "FrozenSet", "List", "Set", "data", "interpolate",
   "re", "is_balanced", "is_predicted",
   "BaseFilter", "TransactionFilter", "BalancedTransactionFilter",
   "UnbalancedTransactionFilter", "PredictedTransactionFilter"]

def moduleDefinesName (n : String) : Bool := moduleTopLevelNames.contains n

/-- `UnbalancedTransactionFilter(options_map)`.  The `__init__` body that
the tokenizer actually assembles (see `filterPyScopes` below) is:
`super().__init__(options_map)`; `self._inverse_condition = True`;
`return transactions_latest` — the last statement is source line 98, left
behind by the commented-out `MostRecentTransactionFilter` class and
attached to this method body because only comment and blank lines separate
it from line 69 at the same indentation.  Executing it looks up the name
`transactions_latest`, which is neither local, global nor builtin, so the
constructor raises `NameError` (were the name bound, returning a non-None
value from `__init__` would raise `TypeError` instead). -/
def UnbalancedTransactionFilter.new {Cfg : Type} (options_map : Cfg) :
    Except PyErr (FilterInst Cfg) :=
  let self : FilterInst Cfg :=
    { cls := .unbalancedTransactionFilter, inverse_condition := false,
      options_map := some options_map }
  let _self := { self with inverse_condition := true }
  if moduleDefinesName "transactions_latest" then
    .error (.typeError "init returned non-None value")
  else
    .error (.nameError "transactions_latest")

/-- `self._cond_impl(entry)`: resolve `_cond_impl` through the MRO of the
dynamic class and run the body found.  The balanced body (line 61) reads
`self._options_map`; accessing a missing attribute raises AttributeError. -/
def BaseFilter.cond_impl {Cfg : Type} (is_balanced : Directive → Cfg → Bool)
    (is_predicted : Directive → Bool) (self : FilterInst Cfg) (entry : Directive) :
    Except PyErr Bool :=
  match (mro self.cls).findSome? definesCondImpl with
  | some .baseBody => .ok true
  | some .txnBody => .ok entry.isTransaction
  | some .balancedBody =>
      match self.options_map with
      | some m => .ok (is_balanced entry m)
      | none => .error (.attributeError "_options_map")
  | some .predictedBody => .ok (is_predicted entry)
  | none => .error (.attributeError "_cond_impl")

/-- `BaseFilter._test_condition` (lines 37-41): evaluate `_cond_impl`, then
negate the outcome when `_inverse_condition` is set.  Defined only on
`BaseFilter` and never overridden. -/
def BaseFilter.test_condition {Cfg : Type} (is_balanced : Directive → Cfg → Bool)
    (is_predicted : Directive → Bool) (self : FilterInst Cfg) (entry : Directive) :
    Except PyErr Bool :=
  match BaseFilter.cond_impl is_balanced is_predicted self entry with
  | .error e => .error e
  | .ok condition => .ok (if self.inverse_condition then !condition else condition)

/-- The list comprehension `[entry for entry in entries if p(entry)]` where
the test `p` may raise: elements are tested left to right and a raised
exception aborts the whole comprehension. -/
def filterExc {α ε : Type} (p : α → Except ε Bool) : List α → Except ε (List α)
  | [] => .ok []
  | a :: as =>
    match p a with
    | .error e => .error e
    | .ok keep =>
      match filterExc p as with
      | .error e => .error e
      | .ok rest => .ok (if keep then a :: rest else rest)

/-- `BaseFilter._filter_impl` (lines 34-35).  Defined only on `BaseFilter`
and never overridden. -/
def BaseFilter.filter_impl {Cfg : Type} (is_balanced : Directive → Cfg → Bool)
    (is_predicted : Directive → Bool) (self : FilterInst Cfg)
    (entries : List Directive) : Except PyErr (List Directive) :=
  filterExc (BaseFilter.test_condition is_balanced is_predicted self) entries

/-- The body of `BaseFilter.filter` (lines 27-32):
line 28 compares the dynamic class with `BaseFilter` and returns the input
unchanged on equality; line 30 tests `hasattr(super(), "filter")` — the
zero-argument `super()` of the textually enclosing class `BaseFilter` —
and when it holds line 31 calls `super().filter()` with no positional
argument, which would raise `TypeError` since `filter` requires `entries`;
line 32 runs `self._filter_impl(entries)`. -/
def BaseFilter.filter {Cfg : Type} (is_balanced : Directive → Cfg → Bool)
    (is_predicted : Directive → Bool) (self : FilterInst Cfg)
    (entries : List Directive) : Except PyErr (List Directive) :=
  if self.cls = .baseFilter then .ok entries
  else if superHasFilter self.cls then
    .error (.typeError "filter missing 1 required positional argument: entries")
  else
    BaseFilter.filter_impl is_balanced is_predicted self entries

/-- The call `obj.filter(entries)`: resolve the name `filter` through the
MRO of the dynamic class (only `BaseFilter` defines it) and run the body
found. -/
def FilterInst.filter {Cfg : Type} (is_balanced : Directive → Cfg → Bool)
    (is_predicted : Directive → Bool) (self : FilterInst Cfg)
    (entries : List Directive) : Except PyErr (List Directive) :=
  match (mro self.cls).find? definesFilterMethod with
  | some (.cls .baseFilter) => BaseFilter.filter is_balanced is_predicted self entries
  | _ => .error (.attributeError "filter")

/-!
## Source layout model

CPython decides block structure from physical lines: a line holding only
whitespace or a comment produces no INDENT/DEDENT/NEWLINE token, and a
physical line inside a triple-quoted string begun on an earlier line is part
of that earlier logical line.  We model each physical line by its
indentation and kind, and run the indentation algorithm: a stack of open
blocks; after a colon header the next code line must be deeper and opens
the header block; otherwise the line dedents to an exactly matching level.
A `return` statement is legal only when the nearest enclosing non-`if`
block is a function body.
-/

/-- Kind of a physical source line. -/
inductive LineKind where
  | blank
  | comment
  | strCont
  | defHeader (n : String)
  | classHeader (n : String)
  | ifHeader
  | ret
  | stmt
deriving DecidableEq, Repr

/-- A physical source line: its indentation (in columns) and kind.  For a
multi-line string only the first physical line carries the statement; the
following ones are `strCont`. -/
structure PyLine where
  indent : Nat
  kind : LineKind
deriving DecidableEq, Repr

/-- An open block on the tokenizer stack. -/
inductive BlockCtx where
  | moduleCtx
  | classCtx (n : String)
  | fnCtx (n : String)
  | ifCtx
deriving DecidableEq, Repr

/-- A `return` statement is legal iff the nearest enclosing non-`if` block
is a function body (`if` blocks do not delimit scopes). -/
def inFunction : List BlockCtx → Bool
  | [] => false
  | .ifCtx :: rest => inFunction rest
  | .fnCtx _ :: _ => true
  | _ => false

/-- Errors the tokenizer / compiler can signal, each with its line number. -/
inductive ParseErr where
  | unexpectedIndent (line : Nat)
  | expectedIndentedBlock (line : Nat)
  | returnOutsideFunction (line : Nat)
deriving DecidableEq, Repr

/-- The block a header line opens, if any. -/
def headerCtx : LineKind → Option BlockCtx
  | .defHeader n => some (.fnCtx n)
  | .classHeader n => some (.classCtx n)
  | .ifHeader => some .ifCtx
  | _ => none

/-- Pop blocks strictly deeper than `indent`. -/
def popTo (indent : Nat) : List (Nat × BlockCtx) → List (Nat × BlockCtx)
  | [] => []
  | (i, c) :: rest => if indent < i then popTo indent rest else (i, c) :: rest

/-- Place a code line with indentation `indent`: after a header (`pending`)
it must be strictly deeper and opens the pending block; otherwise it dedents
to an exactly matching open level. -/
def placeLine (pending : Option BlockCtx) (stack : List (Nat × BlockCtx))
    (indent lineNo : Nat) : Except ParseErr (List (Nat × BlockCtx)) :=
  match pending with
  | some ctx =>
      match stack with
      | (i, _) :: _ =>
          if i < indent then .ok ((indent, ctx) :: stack)
          else .error (.expectedIndentedBlock lineNo)
      | [] => .error (.expectedIndentedBlock lineNo)
  | none =>
      match popTo indent stack with
      | (i, c) :: rest =>
          if i = indent then .ok ((i, c) :: rest)
          else .error (.unexpectedIndent lineNo)
      | [] => .error (.unexpectedIndent lineNo)

/-- Tokenizer state: open blocks (innermost first), a pending header block,
the current line number, and for every code line processed so far the block
contexts (innermost first) it belongs to. -/
structure TokState where
  stack : List (Nat × BlockCtx)
  pending : Option BlockCtx
  lineNo : Nat
  scopes : List (Nat × List BlockCtx)
deriving Repr

/-- Process one physical line.  Blank, comment and string-interior lines
are invisible to the indentation algorithm. -/
def tokStep (st : TokState) (l : PyLine) : Except ParseErr TokState :=
  match l.kind with
  | .blank => .ok { st with lineNo := st.lineNo + 1 }
  | .comment => .ok { st with lineNo := st.lineNo + 1 }
  | .strCont => .ok { st with lineNo := st.lineNo + 1 }
  | k => do
      let stack ← placeLine st.pending st.stack l.indent st.lineNo
      let ctxs := stack.map Prod.snd
      if k = .ret then
        if inFunction ctxs then
          pure { stack := stack, pending := none, lineNo := st.lineNo + 1,
                 scopes := st.scopes ++ [(st.lineNo, ctxs)] }
        else .error (.returnOutsideFunction st.lineNo)
      else
        pure { stack := stack, pending := headerCtx k, lineNo := st.lineNo + 1,
               scopes := st.scopes ++ [(st.lineNo, ctxs)] }

/-- Tokenize a whole module (lines numbered from 1): returns, for each code
line, the stack of block contexts containing it, or the first error. -/
def tokenizeModule (lines : List PyLine) : Except ParseErr (List (Nat × List BlockCtx)) := do
  let st ← lines.foldlM tokStep
    { stack := [(0, .moduleCtx)], pending := none, lineNo := 1, scopes := [] }
  match st.pending with
  | some _ => .error (.expectedIndentedBlock st.lineNo)
  | none => pure st.scopes

/-- The block contexts enclosing a given code line, when the module
tokenizes without error. -/
def scopeOfLine (lines : List PyLine) (n : Nat) : Option (List BlockCtx) :=
  match tokenizeModule lines with
  | .ok scopes => scopes.lookup n
  | .error _ => none


/-- Physical line shorthands for the transcription below. -/
def lnComment : PyLine := ⟨0, .comment⟩

def lnBlank : PyLine := ⟨0, .blank⟩

def lnStrCont : PyLine := ⟨0, .strCont⟩

def lnStmt (i : Nat) : PyLine := ⟨i, .stmt⟩

def lnIf (i : Nat) : PyLine := ⟨i, .ifHeader⟩

def lnRet (i : Nat) : PyLine := ⟨i, .ret⟩

def lnDef (i : Nat) (n : String) : PyLine := ⟨i, .defHeader n⟩

def lnClass (n : String) : PyLine := ⟨0, .classHeader n⟩

/-- The 105 physical lines of `beanbot/ops/filter.py`, in order (line `k` is
entry `k - 1`).  Indentation and kinds transcribed from the source; the
`BaseFilter` docstring spans lines 14-22 (one logical line, eight string
interior lines), the other docstrings are single-line expression
statements. -/
def filterPyLines : List PyLine :=
  [lnComment, lnComment, lnComment, lnBlank,                -- 1-4   header comments
   lnStmt 0, lnStmt 0, lnStmt 0, lnStmt 0, lnBlank,         -- 5-9   imports
   lnStmt 0, lnBlank, lnBlank,                              -- 10-12 import, blank
   lnClass "BaseFilter", lnStmt 4] ++                       -- 13-14 class, docstring opens
  List.replicate 8 lnStrCont ++                             -- 15-22 docstring interior/close
  [lnBlank, lnDef 4 "__init__", lnStmt 8, lnBlank,          -- 23-26
   lnDef 4 "filter",                                        -- 27
   lnIf 8, lnRet 12, lnIf 8, lnStmt 12, lnRet 8,            -- 28-32 filter body
   lnBlank, lnDef 4 "_filter_impl", lnRet 8, lnBlank,       -- 33-36
   lnDef 4 "_test_condition",                               -- 37
   lnStmt 8, lnIf 8, lnStmt 12, lnRet 8, lnBlank,           -- 38-42
   lnDef 4 "_cond_impl", lnRet 8, lnBlank, lnBlank,         -- 43-46
   lnClass "TransactionFilter", lnStmt 4,                   -- 47-48
   lnDef 4 "_cond_impl", lnRet 8, lnBlank, lnBlank,         -- 49-52
   lnClass "BalancedTransactionFilter", lnStmt 4, lnBlank,  -- 53-55
   lnDef 4 "__init__", lnStmt 8, lnStmt 8, lnBlank,         -- 56-59
   lnDef 4 "_cond_impl", lnRet 8, lnBlank, lnBlank,         -- 60-63
   lnClass "UnbalancedTransactionFilter", lnStmt 4, lnBlank, -- 64-66
   lnDef 4 "__init__", lnStmt 8, lnStmt 8,                  -- 67-69
   lnBlank, lnBlank,                                        -- 70-71
   lnComment, lnComment, lnBlank, lnComment, lnBlank,       -- 72-76 commented-out class
   lnComment, lnComment, lnComment, lnBlank,                -- 77-80
   lnComment, lnBlank, lnComment, lnComment, lnBlank,       -- 81-85
   lnComment, lnComment, lnComment, lnComment,              -- 86-89
   lnComment, lnComment, lnComment, lnComment, lnBlank,     -- 90-94
   lnComment, lnComment, lnBlank,                           -- 95-97
   lnRet 8,                                                 -- 98  return transactions_latest
   lnBlank, lnBlank,                                        -- 99-100
   lnClass "PredictedTransactionFilter", lnStmt 4, lnBlank, -- 101-103
   lnDef 4 "_cond_impl", lnRet 8]                           -- 104-105

/-!
## General lemmas about the embedded semantics
-/

/-- The delegation test of line 30 is false for every class in the module:
the MRO part after `BaseFilter` is just `object`, which defines no
`filter`. -/
theorem superHasFilter_false (c : FilterClass) : superHasFilter c = false := by
  cases c <;> rfl

/-- When the per-element test never raises, the exception-aware
comprehension agrees with `List.filter`. -/
theorem filterExc_ok {α ε : Type} (p : α → Except ε Bool) (q : α → Bool)
    (h : ∀ a, p a = .ok (q a)) :
    ∀ l : List α, filterExc p l = .ok (l.filter q) := by
  intro l
  induction l with
  | nil => rfl
  | cons a as ih =>
      rw [filterExc, h a, ih, List.filter_cons]

/-- Whatever the per-element test does, a comprehension that returns keeps
a subsequence of its input. -/
theorem filterExc_sublist {α ε : Type} (p : α → Except ε Bool) :
    ∀ l r : List α, filterExc p l = .ok r → List.Sublist r l := by
  intro l
  induction l with
  | nil =>
      intro r h
      obtain rfl : ([] : List α) = r := by simpa [filterExc] using h
      exact List.Sublist.refl _
  | cons a as ih =>
      intro r h
      rw [filterExc] at h
      cases hp : p a with
      | error e => rw [hp] at h; exact absurd h (by simp)
      | ok b =>
          rw [hp] at h
          cases hrest : filterExc p as with
          | error e => rw [hrest] at h; exact absurd h (by simp)
          | ok rest =>
              rw [hrest] at h
              simp only [Except.ok.injEq] at h
              subst h
              cases b with
              | true => exact List.Sublist.cons₂ a (ih rest hrest)
              | false => exact List.Sublist.cons a (ih rest hrest)

/-!
## Claim theorems
-/

/-- Claim C8: calling `filter(S)` on an instance whose class is exactly the
base filter returns a sequence equal to `S` (same elements, same order,
input unchanged): line 28 compares the dynamic class with `BaseFilter` and
returns the input on equality. -/
theorem claim_C8_base_filter_identity {Cfg : Type} (is_balanced : Directive → Cfg → Bool)
    (is_predicted : Directive → Bool) (S : List Directive) :
    FilterInst.filter is_balanced is_predicted BaseFilter.new S = .ok S := rfl

/-- Claim C7: for every mixed sequence `S`, `TransactionFilter().filter(S)`
returns exactly the transaction entries of `S`, in their original relative
order, and nothing else: the output is `S.filter Directive.isTransaction`,
whose members are exactly the members of `S` that are transactions. -/
theorem claim_C7_transaction_filter_exact {Cfg : Type}
    (is_balanced : Directive → Cfg → Bool) (is_predicted : Directive → Bool)
    (S : List Directive) :
    FilterInst.filter is_balanced is_predicted (TransactionFilter.new : FilterInst Cfg) S
      = .ok (S.filter Directive.isTransaction) ∧
    ∀ e : Directive,
      e ∈ S.filter Directive.isTransaction ↔ e ∈ S ∧ e.isTransaction = true := by
  constructor
  · exact filterExc_ok _ _ (fun e => rfl) S
  · intro e
    simp [List.mem_filter]

/-- Claim C9: for every filter instance and every entry sequence `S`, a run
of `filter` that returns yields a subsequence of `S` (order preserved, no
entry added), and hence an output no longer than `S`. -/
theorem claim_C9_filter_sublist {Cfg : Type} (is_balanced : Directive → Cfg → Bool)
    (is_predicted : Directive → Bool) (inst : FilterInst Cfg)
    (S r : List Directive)
    (h : FilterInst.filter is_balanced is_predicted inst S = .ok r) :
    List.Sublist r S ∧ r.length ≤ S.length := by
  have hs : List.Sublist r S := by
    obtain ⟨c, inv, om⟩ := inst
    cases c
    case baseFilter =>
      obtain rfl : S = r := by simpa [FilterInst.filter, mro, List.find?,
        definesFilterMethod, BaseFilter.filter] using h
      exact List.Sublist.refl _
    case transactionFilter => exact filterExc_sublist _ S r h
    case balancedTransactionFilter => exact filterExc_sublist _ S r h
    case unbalancedTransactionFilter => exact filterExc_sublist _ S r h
    case predictedTransactionFilter => exact filterExc_sublist _ S r h
  exact ⟨hs, hs.length_le⟩

/-- Witness for C9 at a concrete run: the transaction filter applied to a
two-entry sequence returns a one-entry subsequence. -/
theorem claim_C9_filter_sublist_witness :
    List.Sublist [Directive.transaction 1] [Directive.transaction 1, Directive.price 2] ∧
    (1 : Nat) ≤ 2 :=
  claim_C9_filter_sublist (fun (_ : Directive) (_ : Unit) => true) (fun _ => false)
    TransactionFilter.new [Directive.transaction 1, Directive.price 2]
    [Directive.transaction 1] rfl

/-- Claim C10: the delegation test `hasattr(super(), "filter")` at line 30
is false for every class of the module (so the call `super().filter()` at
line 31, which omits the required `entries` argument, never runs), and a
non-base instance filters with its most derived `_cond_impl` alone —
inverted iff `_inverse_condition` is set — with no ancestor condition
applied. -/
theorem claim_C10_no_upward_delegation {Cfg : Type}
    (is_balanced : Directive → Cfg → Bool) (is_predicted : Directive → Bool)
    (inst : FilterInst Cfg) (S : List Directive) :
    superHasFilter inst.cls = false ∧
    (inst.cls ≠ .baseFilter →
      FilterInst.filter is_balanced is_predicted inst S
        = filterExc (BaseFilter.test_condition is_balanced is_predicted inst) S) := by
  refine ⟨superHasFilter_false _, fun hne => ?_⟩
  obtain ⟨c, inv, om⟩ := inst
  cases c
  case baseFilter => exact absurd rfl hne
  all_goals rfl

/-- Witness for C10 at a concrete non-base instance: the predicted filter
on a one-entry sequence runs exactly its own condition test. -/
theorem claim_C10_no_upward_delegation_witness :
    FilterInst.filter (fun (_ : Directive) (_ : Unit) => true) (fun _ => true)
        PredictedTransactionFilter.new [Directive.price 3]
      = filterExc
          (BaseFilter.test_condition (fun (_ : Directive) (_ : Unit) => true) (fun _ => true)
            PredictedTransactionFilter.new)
          [Directive.price 3] :=
  (claim_C10_no_upward_delegation (fun _ _ => true) (fun _ => true)
    PredictedTransactionFilter.new [Directive.price 3]).2 (by decide)

/-- Claim C1 (evaluation at the failing input): the chaining contract does
not hold.  With an external balance predicate that accepts everything, the
derived `BalancedTransactionFilter` keeps a price directive: the parent
transaction-type condition is never applied, because line 30's
`hasattr(super(), "filter")` is false and overriding `_cond_impl` replaces
— rather than conjoins with — the ancestor condition.  The claimed
conjunction semantics would return the empty list here. -/
theorem claim_C1_chaining_fails_eval :
    FilterInst.filter (fun (_ : Directive) (_ : Unit) => true) (fun _ => false)
      (BalancedTransactionFilter.new ()) [Directive.price 0]
      = .ok [Directive.price 0] := rfl

/-- Claim C2 (evaluation at the failing input): `BalancedTransactionFilter`
does not restrict its output to transactions.  With an external balance
predicate that accepts everything, a balance-assertion directive is kept
alongside the transaction, while the claim requires the output to contain
the transaction only. -/
theorem claim_C2_balanced_keeps_nontransaction :
    FilterInst.filter (fun (_ : Directive) (_ : Unit) => true) (fun _ => false)
      (BalancedTransactionFilter.new ())
      [Directive.balanceAssertion 3, Directive.transaction 1]
      = .ok [Directive.balanceAssertion 3, Directive.transaction 1] := rfl

/-- Claim C3 (evaluation at the failing input): constructing
`UnbalancedTransactionFilter` raises `NameError` for every options map —
the stray `return transactions_latest` of line 98 belongs to its
`__init__` body and the name is unbound — so no instance with the
inversion flag set is ever produced. -/
theorem claim_C3_constructor_raises {Cfg : Type} (options_map : Cfg) :
    UnbalancedTransactionFilter.new options_map
      = .error (.nameError "transactions_latest") := rfl

/-- Claim C4 (evaluation at the failing input): `PredictedTransactionFilter`
does not restrict its output to transactions.  With an external prediction
predicate that accepts everything, a price directive is kept, while the
claim requires the empty output. -/
theorem claim_C4_predicted_keeps_nontransaction :
    FilterInst.filter (fun (_ : Directive) (_ : Unit) => false) (fun _ => true)
      PredictedTransactionFilter.new [Directive.price 5]
      = .ok [Directive.price 5] := rfl

/-- Claim C5 (counterexample to the claim as stated): the claim asserts
that the `return` of line 98 sits at module level and makes the module fail
to parse; in fact the module tokenizes without error and line 98 is not a
module-level statement. -/
theorem claim_C5_parse_counterexample :
    (tokenizeModule filterPyLines).isOk = true ∧
    scopeOfLine filterPyLines 98 ≠ some [BlockCtx.moduleCtx] := by decide

/-- Claim C5 (amended): the module is syntactically valid and imports.
Comment and blank lines produce no indentation tokens, so line 98 is
attached to the body of `UnbalancedTransactionFilter.__init__` — the last
open block at indentation 8 — and, since `transactions_latest` is not a
module-level name, executing that constructor raises `NameError` at
runtime rather than failing at import. -/
theorem claim_C5_module_parses :
    (tokenizeModule filterPyLines).isOk = true ∧
    scopeOfLine filterPyLines 98 =
      some [BlockCtx.fnCtx "__init__",
            BlockCtx.classCtx "UnbalancedTransactionFilter", BlockCtx.moduleCtx] ∧
    moduleDefinesName "transactions_latest" = false := by decide

/-- Claim C6 (evaluation at the failing input): the balanced/unbalanced
partition cannot be exercised, because every attempt to build the
unbalanced half and filter with it propagates the constructor's
`NameError`, for every options map, every pair of external predicates and
every input sequence. -/
theorem claim_C6_partition_unavailable {Cfg : Type} (options_map : Cfg)
    (is_balanced : Directive → Cfg → Bool) (is_predicted : Directive → Bool)
    (T : List Directive) :
    (UnbalancedTransactionFilter.new options_map).bind
        (fun u => FilterInst.filter is_balanced is_predicted u T)
      = .error (.nameError "transactions_latest") := rfl
